import Mathlib

/-!
Shallow embedding of `src/catastro.py`, a Spanish Catastro property scraper.

Modelling conventions:
* The network is an oracle `net : String → Option String`: for each URL, the
  text that `fetch_url` eventually returns (`none` when all attempts fail).
  For the retry logic of `fetch_url` itself (claim about retries), a separate
  per-attempt oracle `Nat → Option String` is used, and the trace records the
  number of attempts and the sleep durations.
* `urllib.parse.quote` is a library function; it is abstracted as a parameter
  `quoteF : String → String`.  No claim depends on its internals.
* `xml.etree.ElementTree.fromstring` succeeding is abstracted as a parameter
  `parses : String → Bool` (the source only uses whether it raises).
* The specific `re` patterns of the source (`<tag>([^<]+)</tag>`,
  `<tag>(\d+)</tag>`, `<cuerr>[^0]`, `re.findall`) are implemented concretely
  over character lists below, following Python `re` leftmost-match semantics.
  The one complicated pattern (`Superficie\s+gr.fica.*?>([\d.]+)\s*m` with
  DOTALL/IGNORECASE, in `get_plot_surface`) is abstracted as a parameter
  `surfMatch : String → Option String` returning the first capture group.
* Python falsiness of optional strings (`if not xml_text`) is `truthy` below:
  `None` and the empty string are falsy.
-/

namespace Catastro

/-- Constant `BASE_API` from the source (line 26). -/
def BASE_API : String :=
  "https://ovc.catastro.meh.es/ovcservweb/OVCSWLocalizacionRC/OVCCallejero.asmx"

/-- Constant `SEDE_URL` from the source (line 27). -/
def SEDE_URL : String :=
  "https://www1.sedecatastro.gob.es/CYCBienInmueble/OVCConCiud.aspx"

/-- Python truthiness of an optional string: `None` and `""` are falsy. -/
def truthy : Option String → Bool
  | none => false
  | some s => !s.isEmpty

/-- One attempt of the pattern `(C+)CLOSE` (a nonempty greedy run of characters
satisfying `ok`, immediately followed by the literal `closeTok`) at the start of
`cs`.  Greedy matching with a character class excluding the first character of
`closeTok` means only the maximal run can be followed by the close literal, so
no backtracking is needed. -/
def captureRun (ok : Char → Bool) (closeTok : List Char) (cs : List Char) :
    Option (List Char) :=
  let run := cs.takeWhile ok
  if run.isEmpty then none
  else if closeTok.isPrefixOf (cs.drop run.length) then some run
  else none

/-- Model of `re.search` for the pattern `OPEN(C+)CLOSE`: scan left to right for the
first position where the whole pattern matches, returning the capture group. -/
def searchFrom (openTok : List Char) (ok : Char → Bool) (closeTok : List Char) :
    List Char → Option (List Char)
  | [] => none
  | c :: rest =>
    if openTok.isPrefixOf (c :: rest) then
      match captureRun ok closeTok (List.drop openTok.length (c :: rest)) with
      | some run => some run
      | none => searchFrom openTok ok closeTok rest
    else searchFrom openTok ok closeTok rest

/-- Model of `re.search(r"<tag>([^<]+)</tag>", s)`, returning group 1. -/
def reSearchTag (tag : String) (s : String) : Option String :=
  (searchFrom ("<" ++ tag ++ ">").toList (fun c => c != '<')
      ("</" ++ tag ++ ">").toList s.toList).map (fun run => String.mk run)

/-- Model of `re.search(r"<tag>(\d+)</tag>", s)`, returning group 1 (digit runs). -/
def reSearchTagNum (tag : String) (s : String) : Option String :=
  (searchFrom ("<" ++ tag ++ ">").toList Char.isDigit
      ("</" ++ tag ++ ">").toList s.toList).map (fun run => String.mk run)

/-- Scanner for `re.search(r"<cuerr>[^0]", s)`: is there an occurrence of
`<cuerr>` followed by one character other than `0`? -/
def searchCuerrAux : List Char → Bool
  | [] => false
  | c :: rest =>
    if ("<cuerr>").toList.isPrefixOf (c :: rest) then
      match List.drop 7 (c :: rest) with
      | [] => searchCuerrAux rest
      | d :: _ => if d != '0' then true else searchCuerrAux rest
    else searchCuerrAux rest

/-- Model of `re.search(r"<cuerr>[^0]", s)` as a Boolean (error-code check, line 120). -/
def searchCuerr (s : String) : Bool := searchCuerrAux s.toList

/-- Model of `re.findall` for the pattern `OPEN([^<]+)CLOSE`: all non-overlapping
matches left to right; scanning resumes after the end of each full match.
The `fuel` argument makes the recursion structural (so that it reduces inside
the kernel); every step consumes at least one character, so any fuel of at
least `cs.length` gives the untruncated result. -/
def findAllFromFuel (openTok : List Char) (closeTok : List Char) :
    Nat → List Char → List (List Char)
  | 0, _ => []
  | _, [] => []
  | fuel + 1, c :: rest =>
    if openTok.isPrefixOf (c :: rest) then
      match captureRun (fun ch => ch != '<') closeTok
          (List.drop openTok.length (c :: rest)) with
      | some run =>
        run :: findAllFromFuel openTok closeTok fuel
          (List.drop (openTok.length - 1 + run.length + closeTok.length) rest)
      | none => findAllFromFuel openTok closeTok fuel rest
    else findAllFromFuel openTok closeTok fuel rest

/-- Model of `re.findall` over a character list, with enough fuel for the whole list. -/
def findAllFrom (openTok : List Char) (closeTok : List Char) (cs : List Char) :
    List (List Char) :=
  findAllFromFuel openTok closeTok cs.length cs

/-- Model of `re.findall(r"<tag>([^<]+)</tag>", s)`. -/
def reFindAllTag (tag : String) (s : String) : List String :=
  (findAllFrom ("<" ++ tag ++ ">").toList ("</" ++ tag ++ ">").toList
      s.toList).map (fun run => String.mk run)

/-- Trace of one `fetch_url` call (source lines 30-42): the returned body, the
number of attempts made, and the list of sleep durations (seconds). -/
structure FetchTrace where
  result : Option String
  attempts : Nat
  sleeps : List Nat
deriving Repr, DecidableEq

/-- The retry loop of `fetch_url`: `oracle i` is the outcome of attempt `i`
(`some body` on success).  On failure with further attempts remaining the code
sleeps 2 seconds and retries; on the last attempt it returns `None`. -/
def fetchGo (oracle : Nat → Option String) : Nat → Nat → FetchTrace
  | _, 0 => { result := none, attempts := 0, sleeps := [] }
  | i, rem + 1 =>
    match oracle i with
    | some body => { result := some body, attempts := 1, sleeps := [] }
    | none =>
      if rem = 0 then { result := none, attempts := 1, sleeps := [] }
      else
        let t := fetchGo oracle (i + 1) rem
        { result := t.result, attempts := t.attempts + 1, sleeps := 2 :: t.sleeps }

/-- Function `fetch_url(url, retries)` (source line 30); `retries` defaults to 3 at
every call site. -/
def fetch_url (oracle : Nat → Option String) (retries : Nat) : FetchTrace :=
  fetchGo oracle 0 retries

/-- URL of the `ConsultaMunicipio` query (source lines 53-56). -/
def consultaMunicipioUrl (quoteF : String → String) (province municipality : String) :
    String :=
  BASE_API ++ "/ConsultaMunicipio?Provincia=" ++ quoteF province
    ++ "&Municipio=" ++ quoteF municipality

/-- URL of the `ConsultaVia` query (source lines 79-83). -/
def consultaViaUrl (quoteF : String → String)
    (province municipality street_query : String) : String :=
  BASE_API ++ "/ConsultaVia?Provincia=" ++ quoteF province
    ++ "&Municipio=" ++ quoteF municipality
    ++ "&TipoVia=&NombreVia=" ++ quoteF street_query

/-- URL of the `Consulta_DNPLOC` query (source lines 104-109). -/
def dnplocUrl (quoteF : String → String) (province municipality : String)
    (number : Nat) (street_name street_type : String) : String :=
  BASE_API ++ "/Consulta_DNPLOC?Provincia=" ++ quoteF province
    ++ "&Municipio=" ++ quoteF municipality
    ++ "&Sigla=" ++ quoteF street_type ++ "&Calle=" ++ quoteF street_name
    ++ "&Numero=" ++ toString number ++ "&Bloque=&Escalera=&Planta=&Puerta="

/-- URL of the Sede Electronica viewer page (source lines 170-174). -/
def plotUrl (quoteF : String → String) (cadastral_ref del_code mun_code : String) :
    String :=
  SEDE_URL ++ "?UrbRus=U&RefC=" ++ quoteF cadastral_ref
    ++ "&from=OVCBusqueda&pest=rc&RCCompleta=" ++ quoteF cadastral_ref
    ++ "&final=&del=" ++ del_code ++ "&mun=" ++ mun_code

/-- Function `lookup_municipality_codes` (source lines 45-74). -/
def lookup_municipality_codes (net : String → Option String)
    (quoteF : String → String) (province municipality : String) :
    Option String × Option String :=
  match net (consultaMunicipioUrl quoteF province municipality) with
  | none => (none, none)
  | some xml_text =>
    if xml_text.isEmpty then (none, none)
    else
      let del_code := match reSearchTagNum "cd" xml_text with
        | some d => some d
        | none => reSearchTagNum "cp" xml_text
      let mun_code := match reSearchTagNum "cmc" xml_text with
        | some m => some m
        | none => reSearchTagNum "cm" xml_text
      (del_code, mun_code)

/-- Function `discover_streets` (source lines 77-99): pairs of (sigla, name). -/
def discover_streets (net : String → Option String) (quoteF : String → String)
    (province municipality street_query : String) : List (String × String) :=
  match net (consultaViaUrl quoteF province municipality street_query) with
  | none => [("CL", street_query)]
  | some xml_text =>
    if xml_text.isEmpty then [("CL", street_query)]
    else
      let names := reFindAllTag "nv" xml_text
      let types := reFindAllTag "tv" xml_text
      let streets := names.enum.map (fun p => (types.getD p.1 "CL", p.2))
      if streets.isEmpty then [("CL", street_query)] else streets

/-- Python `int()` restricted to the strings reachable here (digit strings,
possibly empty): `some` of the value on a nonempty digit string, else `none`
(`ValueError`).  Defined over the character data directly so that it reduces
inside the kernel. -/
def pyInt (s : String) : Option Nat :=
  if !s.isEmpty && s.data.all Char.isDigit then
    some (s.data.foldl (fun n c => n * 10 + (c.toNat - 48)) 0)
  else none

/-- The record built by `get_property_from_api` (source lines 154-162). -/
structure PropertyRecord where
  number : Nat
  street : String
  referencia_catastral : String
  parcel_ref : String
  built_surface_m2 : Nat
  year : String
  use : String
deriving Repr, DecidableEq

/-- Function `get_property_from_api` (source lines 102-162). -/
def get_property_from_api (parses : String → Bool) (net : String → Option String)
    (quoteF : String → String) (province municipality : String) (number : Nat)
    (street_name street_type : String) : Option PropertyRecord :=
  match net (dnplocUrl quoteF province municipality number street_name street_type) with
  | none => none
  | some xml_text =>
    if xml_text.isEmpty then none
    else if !parses xml_text then none
    else if searchCuerr xml_text then none
    else
      match reSearchTag "pc1" xml_text, reSearchTag "pc2" xml_text with
      | some p1, some p2 =>
        let parcel_ref := p1 ++ p2
        let full_ref := parcel_ref ++ ((reSearchTag "car" xml_text).getD "")
          ++ ((reSearchTag "cc1" xml_text).getD "")
          ++ ((reSearchTag "cc2" xml_text).getD "")
        some {
          number := number,
          street := street_type ++ " " ++ street_name,
          referencia_catastral := full_ref,
          parcel_ref := parcel_ref,
          built_surface_m2 := ((reSearchTagNum "sfc" xml_text).bind pyInt).getD 0,
          year := (reSearchTagNum "ant" xml_text).getD "",
          use := (reSearchTag "luso" xml_text).getD "" }
      | _, _ => none

/-- Lines 183-189 of the source: strip the dots from the captured group
(`value = match.group(1).replace(".", "")`), parse it as an integer, and
return it only when strictly positive. -/
def parsePlotValue (v : String) : Option Nat :=
  match pyInt (String.mk (v.toList.filter (fun c => c != '.'))) with
  | none => none
  | some result => if 0 < result then some result else none

/-- Function `get_plot_surface` (source lines 165-191).  `surfMatch` abstracts the
`Superficie` regex capture (group 1, over the class of digits and dots). -/
def get_plot_surface (surfMatch : String → Option String)
    (net : String → Option String) (quoteF : String → String)
    (cadastral_ref : String) (del_code mun_code : Option String) : Option Nat :=
  if !truthy del_code || !truthy mun_code then none
  else
    match net (plotUrl quoteF cadastral_ref (del_code.getD "") (mun_code.getD "")) with
    | none => none
    | some html =>
      if html.isEmpty then none
      else
        match surfMatch html with
        | none => none
        | some v => parsePlotValue v

/-- The per-street scan loop of `main` (source lines 250-263), with the network
and parsing behind the probe `probe : Nat → Option PropertyRecord`.  Returns
(collected hits, list of house numbers actually probed).  `misses` is the
running `consecutive_misses` counter: incremented on a miss, reset to 0 on a
hit; when it exceeds `thr` the loop breaks. -/
def scanGo (probe : Nat → Option PropertyRecord) (thr : Nat) :
    List Nat → Nat → List (Nat × PropertyRecord) × List Nat
  | [], _ => ([], [])
  | n :: rest, misses =>
    match probe n with
    | none =>
      if thr < misses + 1 then ([], [n])
      else
        let r := scanGo probe thr rest (misses + 1)
        (r.1, n :: r.2)
    | some p =>
      let r := scanGo probe thr rest 0
      ((n, p) :: r.1, n :: r.2)

/-- One street scan: house numbers `range(1, max_number + 1)` with the
counter starting at 0 (source lines 250-253). -/
def scanStreet (probe : Nat → Option PropertyRecord) (maxNumber thr : Nat) :
    List (Nat × PropertyRecord) × List Nat :=
  scanGo probe thr (List.range' 1 maxNumber) 0

/-- Observable steps of `main`, in program order: the four kinds of fetched
URLs (Step 1 lookup, Step 2 street discovery, Step 3 probes, Step 4 plot
surface) and the single CSV write (Step 5). -/
inductive Event where
  | lookupEv (url : String)
  | discoverEv (url : String)
  | probeEv (url : String)
  | plotEv (url : String)
  | writeEv (filename : String) (rows : List (List String))
deriving Repr, DecidableEq

/-- The command-line arguments of `main` (source lines 195-218), after
`argparse`: `--max-number` defaults to 500, `--consecutive-misses` to 40,
`--output` to `None` and `--no-plot-surface` to false. -/
structure Args where
  province : String
  municipality : String
  street : String
  max_number : Nat
  consecutive_misses : Nat
  output : Option String
  no_plot_surface : Bool

/-- The external world of the program: the network (post-retry `fetch_url`
results per URL) and the abstracted library functions. -/
structure Env where
  net : String → Option String
  parses : String → Bool
  surfMatch : String → Option String
  quoteF : String → String

/-- A collected property as appended in `main` (source lines 272-283): the API
record plus the `plot_surface_m2` field (`none` renders as the empty cell). -/
structure FullRecord where
  prop : PropertyRecord
  plot_surface_m2 : Option Nat
deriving Repr, DecidableEq

/-- The CSV header row (source lines 292-300). -/
def headerRow : List String :=
  ["Referencia Catastral", "Number", "Street", "Built Surface (m2)",
   "Plot Surface (m2)", "Year Built", "Use"]

/-- One CSV data row (source lines 301-310). -/
def renderRow (r : FullRecord) : List String :=
  [r.prop.referencia_catastral, toString r.prop.number, r.prop.street,
   toString r.prop.built_surface_m2,
   (match r.plot_surface_m2 with | some n => toString n | none => ""),
   r.prop.year, r.prop.use]

/-- The sort key comparison of `sorted(properties, key=lambda p: (p["street"],
p["number"]))` (source line 301): lexicographic on the (street, number) pair. -/
def rowKeyLE (p q : FullRecord) : Bool :=
  decide (p.prop.street < q.prop.street
    ∨ (p.prop.street = q.prop.street ∧ p.prop.number ≤ q.prop.number))

/-- The rows written to the CSV file (source lines 290-310): the header, then
one row per property in sorted order. -/
def writeCsvRows (props : List FullRecord) : List (List String) :=
  headerRow :: (props.mergeSort rowKeyLE).map renderRow

/-- The events of one loop iteration of the street scan (source lines
253-284): the `Consulta_DNPLOC` fetch for house number `n`, then, on a hit,
the viewer-page fetch — which happens exactly when `--no-plot-surface` is not
set and both codes are truthy (`get_plot_surface` returns before fetching
otherwise, source lines 167-175). -/
def perNumberEvents (E : Env) (A : Args) (province municipality : String)
    (del_code mun_code : Option String) (sigla name : String) (n : Nat) :
    List Event :=
  Event.probeEv (dnplocUrl E.quoteF province municipality n name sigla) ::
    (match get_property_from_api E.parses E.net E.quoteF province municipality
        n name sigla with
     | some p =>
       if !A.no_plot_surface && truthy del_code && truthy mun_code then
         [Event.plotEv (plotUrl E.quoteF p.referencia_catastral
           (del_code.getD "") (mun_code.getD ""))]
       else []
     | none => [])

/-- The scan of one street in `main` (source lines 247-286): its events, and
the collected properties with their `plot_surface_m2` field filled in. -/
def scanOneStreet (E : Env) (A : Args) (province municipality : String)
    (del_code mun_code : Option String) (sigla name : String) :
    List Event × List FullRecord :=
  let probe := fun num =>
    get_property_from_api E.parses E.net E.quoteF province municipality num name sigla
  let r := scanStreet probe A.max_number A.consecutive_misses
  let evs := r.2.flatMap (perNumberEvents E A province municipality del_code
    mun_code sigla name)
  let recs := r.1.map (fun np =>
    { prop := np.2,
      plot_surface_m2 :=
        if A.no_plot_surface then none
        else get_plot_surface E.surfMatch E.net E.quoteF
          np.2.referencia_catastral del_code mun_code : FullRecord })
  (evs, recs)

/-- Line 220 of the source, `province = args.province.upper()` (ASCII case model). -/
def mainProvince (A : Args) : String := A.province.toUpper

/-- Line 221 of the source, `municipality = args.municipality.upper()`. -/
def mainMunicipality (A : Args) : String := A.municipality.toUpper

/-- Line 222 of the source, `street = args.street.upper()`. -/
def mainStreet (A : Args) : String := A.street.toUpper

/-- The output file name (source line 224). -/
def mainOutputFile (A : Args) : String :=
  match A.output with
  | some o => o
  | none =>
    ((mainMunicipality A).toLower.replace " " "_") ++ "_"
      ++ ((mainStreet A).toLower.replace " " "_") ++ "_catastro.csv"

/-- Step 1 (source lines 227-234): the Sede Electronica codes, skipped when
`--no-plot-surface` is set. -/
def mainCodes (E : Env) (A : Args) : Option String × Option String :=
  if A.no_plot_surface then (none, none)
  else lookup_municipality_codes E.net E.quoteF (mainProvince A) (mainMunicipality A)

/-- Step 2 (source line 238): the street variants to scan. -/
def mainStreets (E : Env) (A : Args) : List (String × String) :=
  discover_streets E.net E.quoteF (mainProvince A) (mainMunicipality A) (mainStreet A)

/-- Steps 3-4 (source lines 247-286): the per-street scans, in street order. -/
def mainScanned (E : Env) (A : Args) : List (List Event × List FullRecord) :=
  (mainStreets E A).map (fun st =>
    scanOneStreet E A (mainProvince A) (mainMunicipality A)
      (mainCodes E A).1 (mainCodes E A).2 st.1 st.2)

/-- The `properties` list accumulated across all streets (source line 283). -/
def mainProperties (E : Env) (A : Args) : List FullRecord :=
  ((mainScanned E A).map Prod.snd).flatten

/-- Function `main` (source lines 194-312) as a pure function of the environment and
arguments: the ordered event trace, the collected properties and the CSV rows.
Steps in source order: (1) municipality-code lookup unless
`--no-plot-surface`, (2) street discovery, (3) per-street scans with (4) plot
fetches inline, (5) a single CSV write at the end. -/
def mainRun (E : Env) (A : Args) : List Event × List FullRecord × List (List String) :=
  ((if A.no_plot_surface then []
    else [Event.lookupEv (consultaMunicipioUrl E.quoteF (mainProvince A)
      (mainMunicipality A))])
     ++ Event.discoverEv (consultaViaUrl E.quoteF (mainProvince A)
          (mainMunicipality A) (mainStreet A))
        :: ((mainScanned E A).map Prod.fst).flatten
     ++ [Event.writeEv (mainOutputFile A) (writeCsvRows (mainProperties E A))],
   mainProperties E A, writeCsvRows (mainProperties E A))

/-- The URL fetched by an event, when it is a fetch. -/
def eventUrl : Event → Option String
  | Event.lookupEv u => some u
  | Event.discoverEv u => some u
  | Event.probeEv u => some u
  | Event.plotEv u => some u
  | Event.writeEv _ _ => none

/-- Is the event a house-number probe or a plot-surface fetch (the events of
the scanning phase)? -/
def isScanEvent : Event → Bool
  | Event.probeEv _ => true
  | Event.plotEv _ => true
  | _ => false

/-- Is the event the CSV write? -/
def isWriteEvent : Event → Bool
  | Event.writeEv _ _ => true
  | _ => false

/-- Is the event a plot-surface fetch? -/
def isPlotEvent : Event → Bool
  | Event.plotEv _ => true
  | _ => false

/-- Sample record used by concrete witnesses. -/
def sampleProp : PropertyRecord :=
  { number := 1, street := "CL REAL", referencia_catastral := "R",
    parcel_ref := "R", built_surface_m2 := 10, year := "1990",
    use := "Residencial" }

/-- Sample probe: hits at house numbers 1 and 2, misses elsewhere. -/
def sampleProbe : Nat → Option PropertyRecord :=
  fun n => if n ≤ 2 then some sampleProp else none

/-- Sample XML-parse oracle: parsing succeeds exactly on nonempty text. -/
def sampleParses : String → Bool := fun s => !s.isEmpty

/-- Sample network: every URL returns a parcel reference with only the
required fields present. -/
def sampleNet : String → Option String := fun _ => some "<pc1>AB</pc1><pc2>CD</pc2>"

/-- Sample per-attempt oracle: attempts 0 fails, attempt 1 succeeds. -/
def sampleOracle : Nat → Option String := fun i => if i = 1 then some "ok" else none

/-- Sample viewer-page capture: the Superficie group reads `1.052`. -/
def sampleSurf : String → Option String := fun _ => some "1.052"

/-- Sample collected property for the CSV witnesses. -/
def sampleFull : FullRecord := { prop := sampleProp, plot_surface_m2 := some 250 }

/-- A second sample collected property, later in street order. -/
def sampleFull2 : FullRecord :=
  { prop := { sampleProp with number := 3, street := "CL ZZZ" }, plot_surface_m2 := none }

/-- Sample environment for the `main` witnesses: the network always answers
with municipality codes, parsing succeeds on nonempty text. -/
def sampleEnv : Env :=
  { net := fun _ => some "<cd>28</cd><cmc>8</cmc>",
    parses := fun s => !s.isEmpty,
    surfMatch := fun _ => none,
    quoteF := id }

/-- Sample command-line arguments with plot surfaces enabled. -/
def sampleArgs : Args :=
  { province := "TOLEDO", municipality := "ALMOROX", street := "PINAR",
    max_number := 5, consecutive_misses := 1, output := none,
    no_plot_surface := false }

/-!  Helper lemmas about the scan loop. -/

theorem range'_succ_eq (n k : Nat) :
    List.range' n (k + 1) = n :: List.range' (n + 1) k := rfl

theorem scanGo_fst_eq (probe : Nat → Option PropertyRecord) (thr : Nat) :
    ∀ (l : List Nat) (m : Nat),
      (scanGo probe thr l m).1
        = (scanGo probe thr l m).2.filterMap (fun n => (probe n).map (fun p => (n, p))) := by
  intro l
  induction l with
  | nil => intro m; simp [scanGo]
  | cons n rest ih =>
    intro m
    cases hpn : probe n with
    | none =>
      by_cases hbr : thr < m + 1
      · simp [scanGo, hpn, hbr]
      · simp [scanGo, hpn, hbr, ih (m + 1)]
    | some p =>
      simp [scanGo, hpn, ih 0]

theorem scanGo_spec (probe : Nat → Option PropertyRecord) (thr : Nat) :
    ∀ (len n m : Nat), (∀ j, n - m ≤ j → j < n → probe j = none) →
    ∃ k, k ≤ len ∧ (scanGo probe thr (List.range' n len) m).2 = List.range' n k ∧
      (k < len → thr + 1 ≤ m + k ∧
        ∀ j, n + k - (thr + 1) ≤ j → j < n + k → probe j = none) ∧
      (∀ j, n ≤ j → j + 1 < n + k →
        m + (j - n) + 1 ≤ thr ∨ ∃ i, n ≤ i ∧ i ≤ j ∧ j ≤ i + thr ∧ probe i ≠ none) := by
  intro len
  induction len with
  | zero =>
    intro n m hm
    refine ⟨0, Nat.le_refl 0, by simp [List.range', scanGo], ?_, ?_⟩
    · intro h; exact absurd h (by omega)
    · intro j h1 h2; omega
  | succ len ih =>
    intro n m hm
    rw [range'_succ_eq]
    cases hpn : probe n with
    | some p =>
      obtain ⟨k, hkle, hkeq, hbrk, hnb⟩ :=
        ih (n + 1) 0 (by intro j h1 h2; exact absurd h2 (by omega))
      refine ⟨k + 1, by omega, ?_, ?_, ?_⟩
      · simp [scanGo, hpn, hkeq, range'_succ_eq]
      · intro hlt
        have h2 := hbrk (by omega)
        refine ⟨by omega, ?_⟩
        intro j hj1 hj2
        exact h2.2 j (by omega) (by omega)
      · intro j hj1 hj2
        rcases Nat.lt_or_ge j (n + 1) with hc | hc
        · exact Or.inr ⟨n, by omega, by omega, by omega, by simp [hpn]⟩
        · rcases hnb j hc (by omega) with h1 | h1
          · exact Or.inr ⟨n, by omega, by omega, by omega, by simp [hpn]⟩
          · obtain ⟨i, hi1, hi2, hi3, hi4⟩ := h1
            exact Or.inr ⟨i, by omega, hi2, hi3, hi4⟩
    | none =>
      by_cases hbr : thr < m + 1
      · refine ⟨1, by omega, ?_, ?_, ?_⟩
        · simp [scanGo, hpn, hbr, range'_succ_eq, List.range']
        · intro hlt
          refine ⟨by omega, ?_⟩
          intro j hj1 hj2
          rcases Nat.lt_or_ge j n with hc | hc
          · exact hm j (by omega) hc
          · have hjn : j = n := by omega
            rw [hjn]; exact hpn
        · intro j hj1 hj2; omega
      · have hm2 : ∀ j, (n + 1) - (m + 1) ≤ j → j < n + 1 → probe j = none := by
          intro j h1 h2
          rcases Nat.lt_or_ge j n with hc | hc
          · exact hm j (by omega) hc
          · have hjn : j = n := by omega
            rw [hjn]; exact hpn
        obtain ⟨k, hkle, hkeq, hbrk, hnb⟩ := ih (n + 1) (m + 1) hm2
        refine ⟨k + 1, by omega, ?_, ?_, ?_⟩
        · simp [scanGo, hpn, hbr, hkeq, range'_succ_eq]
        · intro hlt
          have h2 := hbrk (by omega)
          refine ⟨by omega, ?_⟩
          intro j hj1 hj2
          exact h2.2 j (by omega) (by omega)
        · intro j hj1 hj2
          rcases Nat.lt_or_ge j (n + 1) with hc | hc
          · exact Or.inl (by omega)
          · rcases hnb j hc (by omega) with h1 | h1
            · exact Or.inl (by omega)
            · obtain ⟨i, hi1, hi2, hi3, hi4⟩ := h1
              exact Or.inr ⟨i, by omega, hi2, hi3, hi4⟩

/-- Claim C1: for every street scanned, the numeric scan stops after a run of
consecutive misses: the per-street counter (`misses` in `scanGo`) is
incremented on each probe returning `none` and reset to zero on each hit, and
as soon as it exceeds the threshold no further house numbers are probed.
Formally: the probed numbers are exactly an initial segment `1..k` of
`1..maxNumber`; if the scan stopped early (`k < maxNumber`) then the last
`thr + 1` probed numbers were all misses; and the scan never continues past a
completed run: every probed number `j` (other than the last) with
`thr + 1 ≤ j` has a hit among the `thr + 1` probes ending at `j`. -/
theorem scan_stops_after_consecutive_misses (probe : Nat → Option PropertyRecord)
    (maxNumber thr : Nat) :
    ∃ k, k ≤ maxNumber ∧ (scanStreet probe maxNumber thr).2 = List.range' 1 k ∧
      (k < maxNumber → thr + 1 ≤ k ∧ ∀ j, k - thr ≤ j → j ≤ k → probe j = none) ∧
      (∀ j, thr + 1 ≤ j → j + 1 ≤ k →
        ∃ i, i ≤ j ∧ j ≤ i + thr ∧ probe i ≠ none) := by
  obtain ⟨k, h1, h2, h3, h4⟩ :=
    scanGo_spec probe thr maxNumber 1 0 (by intro j hj1 hj2; omega)
  refine ⟨k, h1, h2, ?_, ?_⟩
  · intro hlt
    obtain ⟨ha, hb⟩ := h3 hlt
    refine ⟨by omega, ?_⟩
    intro j hj1 hj2
    exact hb j (by omega) (by omega)
  · intro j hj1 hj2
    rcases h4 j (by omega) (by omega) with h | h
    · omega
    · obtain ⟨i, hi1, hi2, hi3, hi4⟩ := h
      exact ⟨i, hi2, hi3, hi4⟩

/-- Witness for C1 at a concrete probe (hits at 1 and 2, threshold 1,
maximum 10): the scan probes exactly 1..4. -/
theorem scan_stops_after_consecutive_misses_witness :
    ∃ k, k ≤ 10 ∧ (scanStreet sampleProbe 10 1).2 = List.range' 1 k ∧
      (k < 10 → 1 + 1 ≤ k ∧ ∀ j, k - 1 ≤ j → j ≤ k → sampleProbe j = none) ∧
      (∀ j, 1 + 1 ≤ j → j + 1 ≤ k →
        ∃ i, i ≤ j ∧ j ≤ i + 1 ∧ sampleProbe i ≠ none) :=
  scan_stops_after_consecutive_misses sampleProbe 10 1

/-- Claim C2: house numbers are probed sequentially in strictly increasing
order starting at 1 and never beyond `maxNumber`; every collected property has
a house number in `1..maxNumber`. -/
theorem scan_ascending_within_bounds (probe : Nat → Option PropertyRecord)
    (maxNumber thr : Nat) :
    List.Pairwise (· < ·) (scanStreet probe maxNumber thr).2 ∧
    (∀ n ∈ (scanStreet probe maxNumber thr).2, 1 ≤ n ∧ n ≤ maxNumber) ∧
    ((scanStreet probe maxNumber thr).2 ≠ [] →
      (scanStreet probe maxNumber thr).2.head? = some 1) ∧
    (∀ e ∈ (scanStreet probe maxNumber thr).1, 1 ≤ e.1 ∧ e.1 ≤ maxNumber) := by
  obtain ⟨k, h1, h2, h3, h4⟩ :=
    scanGo_spec probe thr maxNumber 1 0 (by intro j hj1 hj2; omega)
  have h2s : (scanStreet probe maxNumber thr).2 = List.range' 1 k := h2
  refine ⟨?_, ?_, ?_, ?_⟩
  · rw [h2s]; exact List.pairwise_lt_range' 1 k
  · intro n hn
    rw [h2s, List.mem_range'_1] at hn
    omega
  · intro hne
    rw [h2s] at hne ⊢
    cases k with
    | zero => simp [List.range'] at hne
    | succ k => rw [range'_succ_eq]; rfl
  · intro e he
    have hfst : (scanStreet probe maxNumber thr).1
        = (scanStreet probe maxNumber thr).2.filterMap
            (fun n => (probe n).map (fun p => (n, p))) :=
      scanGo_fst_eq probe thr (List.range' 1 maxNumber) 0
    rw [hfst, h2s] at he
    rw [List.mem_filterMap] at he
    obtain ⟨a, ha, hae⟩ := he
    rw [List.mem_range'_1] at ha
    cases hpa : probe a with
    | none => rw [hpa] at hae; simp at hae
    | some p =>
      rw [hpa] at hae
      simp only [Option.map_some'] at hae
      injection hae with hae2
      subst hae2
      exact ⟨by omega, by omega⟩

/-- Witness for C2 at the sample probe. -/
theorem scan_ascending_within_bounds_witness :
    List.Pairwise (· < ·) (scanStreet sampleProbe 10 1).2 ∧
    (∀ n ∈ (scanStreet sampleProbe 10 1).2, 1 ≤ n ∧ n ≤ 10) ∧
    ((scanStreet sampleProbe 10 1).2 ≠ [] →
      (scanStreet sampleProbe 10 1).2.head? = some 1) ∧
    (∀ e ∈ (scanStreet sampleProbe 10 1).1, 1 ≤ e.1 ∧ e.1 ≤ 10) :=
  scan_ascending_within_bounds sampleProbe 10 1

/-- Claim C3: `get_property_from_api` validates registry data only for
presence of required fields: it returns `none` exactly when the fetch fails
(yields no usable text), the XML does not parse, an error code is present, or
the `pc1` or `pc2` field is missing; when `pc1` and `pc2` are both present it
returns a record even if `car`, `cc1`, `cc2`, `sfc`, `ant` or `luso` are
absent, with built surface defaulting to 0 and year and use to the empty
string.  The hypothesis `hempty` records that the real XML parser rejects the
empty string, folding the Python falsiness check into the parse check. -/
theorem get_property_validation (parses : String → Bool) (net : String → Option String)
    (quoteF : String → String) (province municipality : String) (number : Nat)
    (street_name street_type : String) (hempty : parses "" = false) :
    (get_property_from_api parses net quoteF province municipality number
        street_name street_type = none ↔
      net (dnplocUrl quoteF province municipality number street_name street_type) = none ∨
        ∃ xml, net (dnplocUrl quoteF province municipality number street_name street_type)
            = some xml ∧
          (parses xml = false ∨ searchCuerr xml = true ∨
            reSearchTag "pc1" xml = none ∨ reSearchTag "pc2" xml = none)) ∧
    (∀ xml p1 p2,
      net (dnplocUrl quoteF province municipality number street_name street_type) = some xml →
      parses xml = true → searchCuerr xml = false →
      reSearchTag "pc1" xml = some p1 → reSearchTag "pc2" xml = some p2 →
      get_property_from_api parses net quoteF province municipality number
          street_name street_type = some
        { number := number, street := street_type ++ " " ++ street_name,
          referencia_catastral := p1 ++ p2 ++ (reSearchTag "car" xml).getD ""
            ++ (reSearchTag "cc1" xml).getD "" ++ (reSearchTag "cc2" xml).getD "",
          parcel_ref := p1 ++ p2,
          built_surface_m2 := ((reSearchTagNum "sfc" xml).bind pyInt).getD 0,
          year := (reSearchTagNum "ant" xml).getD "",
          use := (reSearchTag "luso" xml).getD "" }) ∧
    (∀ xml p1 p2,
      net (dnplocUrl quoteF province municipality number street_name street_type) = some xml →
      parses xml = true → searchCuerr xml = false →
      reSearchTag "pc1" xml = some p1 → reSearchTag "pc2" xml = some p2 →
      reSearchTag "car" xml = none → reSearchTag "cc1" xml = none →
      reSearchTag "cc2" xml = none → reSearchTagNum "sfc" xml = none →
      reSearchTagNum "ant" xml = none → reSearchTag "luso" xml = none →
      get_property_from_api parses net quoteF province municipality number
          street_name street_type = some
        { number := number, street := street_type ++ " " ++ street_name,
          referencia_catastral := p1 ++ p2, parcel_ref := p1 ++ p2,
          built_surface_m2 := 0, year := "", use := "" }) := by
  have hne : ∀ xml, parses xml = true → xml.isEmpty = false := by
    intro xml hp
    cases hxe : xml.isEmpty
    · rfl
    · have : xml = "" := (String.isEmpty_iff xml).mp hxe
      rw [this] at hp
      rw [hempty] at hp
      exact absurd hp (by simp)
  refine ⟨?_, ?_, ?_⟩
  · rcases hnet : net (dnplocUrl quoteF province municipality number street_name street_type)
      with _ | xml
    · simp [get_property_from_api, hnet]
    · by_cases hxe : xml.isEmpty = true
      · have hx : xml = "" := (String.isEmpty_iff xml).mp hxe
        subst hx
        simp [get_property_from_api, hnet, hempty]
      · have hxe2 : xml.isEmpty = false := by
          cases h : xml.isEmpty
          · rfl
          · exact absurd h hxe
        by_cases hp : parses xml = true
        · by_cases hc : searchCuerr xml = true
          · simp [get_property_from_api, hnet, hxe2, hp, hc]
          · have hc2 : searchCuerr xml = false := by
              cases h : searchCuerr xml
              · rfl
              · exact absurd h hc
            rcases hpc1 : reSearchTag "pc1" xml with _ | p1
            · simp [get_property_from_api, hnet, hxe2, hp, hc2, hpc1]
            · rcases hpc2 : reSearchTag "pc2" xml with _ | p2
              · simp [get_property_from_api, hnet, hxe2, hp, hc2, hpc1, hpc2]
              · simp [get_property_from_api, hnet, hxe2, hp, hc2, hpc1, hpc2]
        · have hp2 : parses xml = false := by
            cases h : parses xml
            · rfl
            · exact absurd h hp
          simp [get_property_from_api, hnet, hxe2, hp2]
  · intro xml p1 p2 hnet hp hc hpc1 hpc2
    simp [get_property_from_api, hnet, hne xml hp, hp, hc, hpc1, hpc2]
  · intro xml p1 p2 hnet hp hc hpc1 hpc2 hcar hcc1 hcc2 hsfc hant hluso
    simp [get_property_from_api, hnet, hne xml hp, hp, hc, hpc1, hpc2,
      hcar, hcc1, hcc2, hsfc, hant, hluso]

/-- Witness for C3: on a response holding only `pc1` and `pc2`, a record is
returned with surface 0 and empty year and use. -/
theorem get_property_validation_witness :
    get_property_from_api sampleParses sampleNet id "P" "M" 7 "REAL" "CL"
      = some { number := 7, street := "CL REAL", referencia_catastral := "ABCD",
               parcel_ref := "ABCD", built_surface_m2 := 0, year := "", use := "" } := by
  have h := (get_property_validation sampleParses sampleNet id "P" "M" 7 "REAL" "CL"
    (by rfl)).2.2 "<pc1>AB</pc1><pc2>CD</pc2>" "AB" "CD"
    (by rfl) (by rfl) (by rfl) (by rfl) (by rfl) (by rfl) (by rfl) (by rfl)
    (by rfl) (by rfl) (by rfl)
  simpa using h

/-- The retry loop returns the outcome of the first successful attempt. -/
theorem fetchGo_first_success (oracle : Nat → Option String) :
    ∀ (rem i j : Nat) (b : String), j < rem →
      (∀ j2, j2 < j → oracle (i + j2) = none) → oracle (i + j) = some b →
      (fetchGo oracle i rem).result = some b := by
  intro rem
  induction rem with
  | zero => intro i j b hj _ _; omega
  | succ rem ih =>
    intro i j b hj hprev hsome
    cases j with
    | zero =>
      have hs : oracle i = some b := by simpa using hsome
      simp [fetchGo, hs]
    | succ j =>
      have h0 : oracle i = none := by simpa using hprev 0 (by omega)
      have hrem : ¬(rem = 0) := by omega
      simp only [fetchGo, h0, hrem, if_false]
      exact ih (i + 1) j b (by omega)
        (fun j2 h => by
          have := hprev (j2 + 1) (by omega)
          rwa [show i + (j2 + 1) = i + 1 + j2 by omega] at this)
        (by rwa [show i + (j + 1) = i + 1 + j by omega] at hsome)

/-- Claim C4: `fetch_url` retries with fixed linear backoff: with the default
`retries = 3` it makes at most 3 attempts; it returns `none` iff all three
attempts fail; it returns the body of the first successful attempt; and it
sleeps a fixed 2 seconds exactly between consecutive attempts (one fewer sleep
than attempts made). -/
theorem fetch_url_retry_spec (oracle : Nat → Option String) :
    (fetch_url oracle 3).attempts ≤ 3 ∧
    ((fetch_url oracle 3).result = none ↔
      oracle 0 = none ∧ oracle 1 = none ∧ oracle 2 = none) ∧
    (∀ b i, i < 3 → (∀ j, j < i → oracle j = none) → oracle i = some b →
      (fetch_url oracle 3).result = some b) ∧
    (fetch_url oracle 3).sleeps
      = List.replicate ((fetch_url oracle 3).attempts - 1) 2 := by
  refine ⟨?_, ?_, ?_, ?_⟩
  · rcases h0 : oracle 0 with _ | b0 <;> rcases h1 : oracle 1 with _ | b1 <;>
      rcases h2 : oracle 2 with _ | b2 <;> simp [fetch_url, fetchGo, h0, h1, h2]
  · rcases h0 : oracle 0 with _ | b0 <;> rcases h1 : oracle 1 with _ | b1 <;>
      rcases h2 : oracle 2 with _ | b2 <;> simp [fetch_url, fetchGo, h0, h1, h2]
  · intro b i hi hprev hsome
    exact fetchGo_first_success oracle 3 0 i b hi
      (fun j2 h => by simpa using hprev j2 h) (by simpa using hsome)
  · rcases h0 : oracle 0 with _ | b0 <;> rcases h1 : oracle 1 with _ | b1 <;>
      rcases h2 : oracle 2 with _ | b2 <;>
      simp [fetch_url, fetchGo, h0, h1, h2, List.replicate]

/-- Witness for C4 at the sample oracle (fail, then succeed). -/
theorem fetch_url_retry_spec_witness :
    (fetch_url sampleOracle 3).attempts ≤ 3 ∧
    ((fetch_url sampleOracle 3).result = none ↔
      sampleOracle 0 = none ∧ sampleOracle 1 = none ∧ sampleOracle 2 = none) ∧
    (∀ b i, i < 3 → (∀ j, j < i → sampleOracle j = none) → sampleOracle i = some b →
      (fetch_url sampleOracle 3).result = some b) ∧
    (fetch_url sampleOracle 3).sleeps
      = List.replicate ((fetch_url sampleOracle 3).attempts - 1) 2 :=
  fetch_url_retry_spec sampleOracle

/-- The CSV sort key comparison is transitive. -/
theorem rowKeyLE_trans (a b c : FullRecord) (hab : rowKeyLE a b = true)
    (hbc : rowKeyLE b c = true) : rowKeyLE a c = true := by
  simp only [rowKeyLE, decide_eq_true_eq] at hab hbc ⊢
  rcases hab with h1 | ⟨h1, h2⟩ <;> rcases hbc with h3 | ⟨h3, h4⟩
  · exact Or.inl (lt_trans h1 h3)
  · exact Or.inl (lt_of_lt_of_eq h1 h3)
  · exact Or.inl (lt_of_eq_of_lt h1 h3)
  · exact Or.inr ⟨h1.trans h3, le_trans h2 h4⟩

/-- The CSV sort key comparison is total. -/
theorem rowKeyLE_total (a b : FullRecord) : rowKeyLE a b || rowKeyLE b a := by
  simp only [rowKeyLE, Bool.or_eq_true, decide_eq_true_eq]
  rcases lt_trichotomy a.prop.street b.prop.street with h | h | h
  · exact Or.inl (Or.inl h)
  · rcases Nat.le_total a.prop.number b.prop.number with hn | hn
    · exact Or.inl (Or.inr ⟨h, hn⟩)
    · exact Or.inr (Or.inr ⟨h.symm, hn⟩)
  · exact Or.inr (Or.inl h)

/-- Claim C5: the CSV written at the end of a completed run has the seven-column
header row, followed by exactly one row per collected property, each carrying
that property's cadastral reference, surfaces, year, and use; and `main`
writes exactly these rows for the collected properties. -/
theorem csv_output_shape (props : List FullRecord) :
    writeCsvRows props = ["Referencia Catastral", "Number", "Street",
        "Built Surface (m2)", "Plot Surface (m2)", "Year Built", "Use"]
      :: (props.mergeSort rowKeyLE).map renderRow ∧
    (writeCsvRows props).tail.Perm (props.map renderRow) ∧
    (writeCsvRows props).tail.length = props.length ∧
    (∀ r : FullRecord, renderRow r = [r.prop.referencia_catastral,
      toString r.prop.number, r.prop.street, toString r.prop.built_surface_m2,
      (match r.plot_surface_m2 with | some n => toString n | none => ""),
      r.prop.year, r.prop.use]) ∧
    (∀ (E : Env) (A : Args), (mainRun E A).2.2 = writeCsvRows (mainRun E A).2.1) := by
  refine ⟨rfl, ?_, ?_, fun r => rfl, fun E A => rfl⟩
  · exact (List.mergeSort_perm props rowKeyLE).map renderRow
  · simp [writeCsvRows]

/-- Witness for C5 at a two-element property list. -/
theorem csv_output_shape_witness :
    writeCsvRows [sampleFull2, sampleFull] = ["Referencia Catastral", "Number",
        "Street", "Built Surface (m2)", "Plot Surface (m2)", "Year Built", "Use"]
      :: ([sampleFull2, sampleFull].mergeSort rowKeyLE).map renderRow ∧
    (writeCsvRows [sampleFull2, sampleFull]).tail.Perm
      ([sampleFull2, sampleFull].map renderRow) ∧
    (writeCsvRows [sampleFull2, sampleFull]).tail.length
      = [sampleFull2, sampleFull].length ∧
    (∀ r : FullRecord, renderRow r = [r.prop.referencia_catastral,
      toString r.prop.number, r.prop.street, toString r.prop.built_surface_m2,
      (match r.plot_surface_m2 with | some n => toString n | none => ""),
      r.prop.year, r.prop.use]) ∧
    (∀ (E : Env) (A : Args), (mainRun E A).2.2 = writeCsvRows (mainRun E A).2.1) :=
  csv_output_shape [sampleFull2, sampleFull]

/-- Claim C10: the data rows of the output CSV are sorted ascending by the
(street, number) pair, and are a permutation of the collected properties'
rows, independently of discovery order. -/
theorem csv_rows_sorted (props : List FullRecord) :
    List.Pairwise (fun p q => rowKeyLE p q = true) (props.mergeSort rowKeyLE) ∧
    (props.mergeSort rowKeyLE).Perm props ∧
    (writeCsvRows props).tail = (props.mergeSort rowKeyLE).map renderRow := by
  refine ⟨?_, List.mergeSort_perm props rowKeyLE, rfl⟩
  exact List.sorted_mergeSort rowKeyLE_trans rowKeyLE_total props

/-- Witness for C10: the out-of-order two-element list comes out sorted. -/
theorem csv_rows_sorted_witness :
    List.Pairwise (fun p q => rowKeyLE p q = true)
      ([sampleFull2, sampleFull].mergeSort rowKeyLE) ∧
    ([sampleFull2, sampleFull].mergeSort rowKeyLE).Perm [sampleFull2, sampleFull] ∧
    (writeCsvRows [sampleFull2, sampleFull]).tail
      = ([sampleFull2, sampleFull].mergeSort rowKeyLE).map renderRow :=
  csv_rows_sorted [sampleFull2, sampleFull]

/-- Claim C8: `discover_streets` always returns a non-empty list: on fetch
failure or when no `<nv>` names are found it returns the single fallback
`("CL", street_query)`; a street name with no paired `<tv>` type gets type
`"CL"`. -/
theorem discover_streets_spec (net : String → Option String)
    (quoteF : String → String) (province municipality street_query : String) :
    discover_streets net quoteF province municipality street_query ≠ [] ∧
    (net (consultaViaUrl quoteF province municipality street_query) = none →
      discover_streets net quoteF province municipality street_query
        = [("CL", street_query)]) ∧
    (∀ xml, net (consultaViaUrl quoteF province municipality street_query) = some xml →
      reFindAllTag "nv" xml = [] →
      discover_streets net quoteF province municipality street_query
        = [("CL", street_query)]) ∧
    (∀ xml i, net (consultaViaUrl quoteF province municipality street_query) = some xml →
      i < (reFindAllTag "nv" xml).length → (reFindAllTag "tv" xml).length ≤ i →
      (discover_streets net quoteF province municipality street_query)[i]? =
        some ("CL", (reFindAllTag "nv" xml).getD i "")) := by
  refine ⟨?_, ?_, ?_, ?_⟩
  · rcases hnet : net (consultaViaUrl quoteF province municipality street_query)
      with _ | xml
    · simp [discover_streets, hnet]
    · by_cases hxe : xml.isEmpty = true
      · simp [discover_streets, hnet, hxe]
      · by_cases hnv : reFindAllTag "nv" xml = []
        · simp [discover_streets, hnet, hxe, hnv]
        · simp [discover_streets, hnet, hxe, List.enum_eq_enumFrom, hnv]
  · intro hnet
    simp [discover_streets, hnet]
  · intro xml hnet hnv
    by_cases hxe : xml.isEmpty = true
    · simp [discover_streets, hnet, hxe]
    · simp [discover_streets, hnet, hxe, hnv]
  · intro xml i hnet hilt hityp
    have hnv : ¬(reFindAllTag "nv" xml = []) := by
      intro h
      rw [h] at hilt
      simp at hilt
    have hxe : ¬(xml.isEmpty = true) := by
      intro hxe
      have hx : xml = "" := (String.isEmpty_iff xml).mp hxe
      rw [hx] at hnv
      exact hnv rfl
    simp only [discover_streets, hnet]
    rw [if_neg hxe]
    rw [if_neg (by simp [List.enum_eq_enumFrom, hnv])]
    rw [List.getElem?_map, List.enum_eq_enumFrom, List.getElem?_enumFrom]
    rw [List.getElem?_eq_getElem hilt]
    simp only [Option.map_some', Nat.zero_add]
    rw [List.getD_eq_getElem?_getD, List.getD_eq_getElem?_getD]
    rw [List.getElem?_eq_none hityp, List.getElem?_eq_getElem hilt]
    rfl

/-- Witness for C8: with one `<nv>` name and no `<tv>` types, entry 0 gets
type `CL`. -/
theorem discover_streets_spec_witness :
    discover_streets (fun _ => some "<nv>REAL</nv>") id "P" "M" "REAL" ≠ [] ∧
    ((fun (_ : String) => some "<nv>REAL</nv>") (consultaViaUrl id "P" "M" "REAL") = none →
      discover_streets (fun _ => some "<nv>REAL</nv>") id "P" "M" "REAL"
        = [("CL", "REAL")]) ∧
    (∀ xml, (fun (_ : String) => some "<nv>REAL</nv>") (consultaViaUrl id "P" "M" "REAL")
        = some xml →
      reFindAllTag "nv" xml = [] →
      discover_streets (fun _ => some "<nv>REAL</nv>") id "P" "M" "REAL"
        = [("CL", "REAL")]) ∧
    (∀ xml i, (fun (_ : String) => some "<nv>REAL</nv>") (consultaViaUrl id "P" "M" "REAL")
        = some xml →
      i < (reFindAllTag "nv" xml).length → (reFindAllTag "tv" xml).length ≤ i →
      (discover_streets (fun _ => some "<nv>REAL</nv>") id "P" "M" "REAL")[i]? =
        some ("CL", (reFindAllTag "nv" xml).getD i "")) :=
  discover_streets_spec (fun _ => some "<nv>REAL</nv>") id "P" "M" "REAL"

/-- Parsing lemmas for the dot-stripped captured value. -/
theorem parsePlotValue_none_of_parse_none (v : String)
    (hv : pyInt (String.mk (v.toList.filter (fun c => c != '.'))) = none) :
    parsePlotValue v = none := by
  unfold parsePlotValue
  rw [hv]

/-- A captured value parsing to 0 yields `none`. -/
theorem parsePlotValue_none_of_zero (v : String)
    (hv : pyInt (String.mk (v.toList.filter (fun c => c != '.'))) = some 0) :
    parsePlotValue v = none := by
  unfold parsePlotValue
  rw [hv]
  rfl

/-- Whenever `parsePlotValue` returns a value, the value is positive. -/
theorem parsePlotValue_pos (v : String) (n : Nat)
    (h : parsePlotValue v = some n) : 0 < n := by
  unfold parsePlotValue at h
  rcases hv : pyInt (String.mk (v.toList.filter (fun c => c != '.'))) with _ | r
  · rw [hv] at h
    exact absurd h (by simp)
  · simp only [hv] at h
    by_cases hr : 0 < r
    · simp [hr] at h
      omega
    · simp [hr] at h

/-- With truthy codes, a fetched nonempty page and a capture, the plot lookup
reduces to parsing the captured value. -/
theorem get_plot_surface_reduce (surfMatch : String → Option String)
    (net : String → Option String) (quoteF : String → String)
    (cadastral_ref : String) (del_code mun_code : Option String)
    (html v : String) (htd : truthy del_code = true) (htm : truthy mun_code = true)
    (hnet : net (plotUrl quoteF cadastral_ref (del_code.getD "") (mun_code.getD ""))
      = some html)
    (hie : html.isEmpty = false) (hsm : surfMatch html = some v) :
    get_plot_surface surfMatch net quoteF cadastral_ref del_code mun_code
      = parsePlotValue v := by
  simp [get_plot_surface, htd, htm, hnet, hie, hsm]

/-- Whenever `get_plot_surface` returns a value, the value is positive. -/
theorem get_plot_surface_pos (surfMatch : String → Option String)
    (net : String → Option String) (quoteF : String → String)
    (cadastral_ref : String) (del_code mun_code : Option String) (n : Nat)
    (h : get_plot_surface surfMatch net quoteF cadastral_ref del_code mun_code = some n) :
    0 < n := by
  by_cases htd : truthy del_code = true
  · by_cases htm : truthy mun_code = true
    · rcases hnet : net (plotUrl quoteF cadastral_ref (del_code.getD "") (mun_code.getD ""))
        with _ | html
      · simp [get_plot_surface, htd, htm, hnet] at h
      · by_cases hie : html.isEmpty = true
        · simp [get_plot_surface, htd, htm, hnet, hie] at h
        · have hie2 : html.isEmpty = false := by
            rwa [Bool.not_eq_true] at hie
          rcases hsm : surfMatch html with _ | v
          · simp [get_plot_surface, htd, htm, hnet, hie2, hsm] at h
          · rw [get_plot_surface_reduce surfMatch net quoteF cadastral_ref del_code
              mun_code html v htd htm hnet hie2 hsm] at h
            exact parsePlotValue_pos v n h
    · have htm2 : truthy mun_code = false := by rwa [Bool.not_eq_true] at htm
      simp [get_plot_surface, htm2] at h
  · have htd2 : truthy del_code = false := by rwa [Bool.not_eq_true] at htd
    simp [get_plot_surface, htd2] at h

/-- Claim C9: `get_plot_surface` returns either `none` or a strictly positive
integer; it returns `none` when a code is missing (falsy), the fetch fails,
no surface matches, the matched value does not parse, or it parses to 0; and
dots in the matched value are stripped as thousands separators, so `1.052`
yields 1052. -/
theorem get_plot_surface_spec (surfMatch : String → Option String)
    (net : String → Option String) (quoteF : String → String)
    (cadastral_ref : String) (del_code mun_code : Option String) :
    (get_plot_surface surfMatch net quoteF cadastral_ref del_code mun_code = none ∨
      ∃ n, 0 < n ∧
        get_plot_surface surfMatch net quoteF cadastral_ref del_code mun_code = some n) ∧
    (truthy del_code = false ∨ truthy mun_code = false →
      get_plot_surface surfMatch net quoteF cadastral_ref del_code mun_code = none) ∧
    (net (plotUrl quoteF cadastral_ref (del_code.getD "") (mun_code.getD "")) = none →
      get_plot_surface surfMatch net quoteF cadastral_ref del_code mun_code = none) ∧
    (∀ html,
      net (plotUrl quoteF cadastral_ref (del_code.getD "") (mun_code.getD "")) = some html →
      surfMatch html = none →
      get_plot_surface surfMatch net quoteF cadastral_ref del_code mun_code = none) ∧
    (∀ html v,
      net (plotUrl quoteF cadastral_ref (del_code.getD "") (mun_code.getD "")) = some html →
      surfMatch html = some v →
      pyInt (String.mk (v.toList.filter (fun c => c != '.'))) = none →
      get_plot_surface surfMatch net quoteF cadastral_ref del_code mun_code = none) ∧
    (∀ html v,
      net (plotUrl quoteF cadastral_ref (del_code.getD "") (mun_code.getD "")) = some html →
      surfMatch html = some v →
      pyInt (String.mk (v.toList.filter (fun c => c != '.'))) = some 0 →
      get_plot_surface surfMatch net quoteF cadastral_ref del_code mun_code = none) ∧
    (∀ html, truthy del_code = true → truthy mun_code = true →
      net (plotUrl quoteF cadastral_ref (del_code.getD "") (mun_code.getD "")) = some html →
      html.isEmpty = false → surfMatch html = some "1.052" →
      get_plot_surface surfMatch net quoteF cadastral_ref del_code mun_code = some 1052) := by
  refine ⟨?_, ?_, ?_, ?_, ?_, ?_, ?_⟩
  · rcases hres : get_plot_surface surfMatch net quoteF cadastral_ref del_code mun_code
      with _ | n
    · exact Or.inl rfl
    · exact Or.inr ⟨n, get_plot_surface_pos surfMatch net quoteF cadastral_ref
        del_code mun_code n hres, rfl⟩
  · intro h
    rcases h with h | h <;> simp [get_plot_surface, h]
  · intro hnet
    by_cases htd : truthy del_code = true
    · by_cases htm : truthy mun_code = true
      · simp [get_plot_surface, htd, htm, hnet]
      · simp [get_plot_surface, htm]
    · simp [get_plot_surface, htd]
  · intro html hnet hsm
    by_cases htd : truthy del_code = true
    · by_cases htm : truthy mun_code = true
      · simp [get_plot_surface, htd, htm, hnet, hsm]
      · simp [get_plot_surface, htm]
    · simp [get_plot_surface, htd]
  · intro html v hnet hsm hv
    by_cases htd : truthy del_code = true
    · by_cases htm : truthy mun_code = true
      · by_cases hie : html.isEmpty = true
        · simp [get_plot_surface, htd, htm, hnet, hie]
        · have hie2 : html.isEmpty = false := by rwa [Bool.not_eq_true] at hie
          rw [get_plot_surface_reduce surfMatch net quoteF cadastral_ref del_code
            mun_code html v htd htm hnet hie2 hsm]
          exact parsePlotValue_none_of_parse_none v hv
      · simp [get_plot_surface, htm]
    · simp [get_plot_surface, htd]
  · intro html v hnet hsm hv
    by_cases htd : truthy del_code = true
    · by_cases htm : truthy mun_code = true
      · by_cases hie : html.isEmpty = true
        · simp [get_plot_surface, htd, htm, hnet, hie]
        · have hie2 : html.isEmpty = false := by rwa [Bool.not_eq_true] at hie
          rw [get_plot_surface_reduce surfMatch net quoteF cadastral_ref del_code
            mun_code html v htd htm hnet hie2 hsm]
          exact parsePlotValue_none_of_zero v hv
      · simp [get_plot_surface, htm]
    · simp [get_plot_surface, htd]
  · intro html htd htm hnet hie hsm
    rw [get_plot_surface_reduce surfMatch net quoteF cadastral_ref del_code
      mun_code html "1.052" htd htm hnet hie hsm]
    rfl

/-- Witness for C9: truthy codes, page fetched, capture `1.052` gives 1052. -/
theorem get_plot_surface_spec_witness :
    get_plot_surface sampleSurf sampleNet id "REF" (some "28") (some "8") = some 1052 :=
  (get_plot_surface_spec sampleSurf sampleNet id "REF" (some "28")
      (some "8")).2.2.2.2.2.2 "<pc1>AB</pc1><pc2>CD</pc2>"
    (by rfl) (by rfl) (by rfl) (by rfl) (by rfl)

/-- A scan event is never the CSV write. -/
theorem isWriteEvent_eq_false_of_scan (e : Event) (h : isScanEvent e = true) :
    isWriteEvent e = false := by
  cases e <;> simp [isScanEvent, isWriteEvent] at h ⊢

/-- Every event of one loop iteration is a probe or a plot fetch. -/
theorem perNumberEvents_scan (E : Env) (A : Args)
    (province municipality : String) (d m : Option String) (sigla name : String)
    (n : Nat) :
    ∀ e ∈ perNumberEvents E A province municipality d m sigla name n,
      isScanEvent e = true := by
  intro e he
  rw [perNumberEvents, List.mem_cons] at he
  rcases he with rfl | he
  · rfl
  · rcases hp : get_property_from_api E.parses E.net E.quoteF province municipality
        n name sigla with _ | p
    · simp only [hp] at he
      exact absurd he (by simp)
    · simp only [hp] at he
      by_cases hc : (!A.no_plot_surface && truthy d && truthy m) = true
      · rw [if_pos hc, List.mem_singleton] at he
        subst he
        rfl
      · rw [if_neg hc] at he
        exact absurd he (by simp)

/-- Every event emitted while scanning one street is a probe or a plot fetch. -/
theorem scanOneStreet_events_scan (E : Env) (A : Args)
    (province municipality : String) (d m : Option String) (sigla name : String) :
    ∀ e ∈ (scanOneStreet E A province municipality d m sigla name).1,
      isScanEvent e = true := by
  intro e he
  simp only [scanOneStreet, List.mem_flatMap] at he
  obtain ⟨n, hn, he⟩ := he
  exact perNumberEvents_scan E A province municipality d m sigla name n e he

/-- With plot surfaces enabled and truthy codes, one loop iteration emits one
plot fetch exactly when the probe hit. -/
theorem perNumberEvents_plot_count (E : Env) (A : Args)
    (province municipality : String) (d m : Option String) (sigla name : String)
    (hflag : A.no_plot_surface = false) (htd : truthy d = true)
    (htm : truthy m = true) (n : Nat) :
    (perNumberEvents E A province municipality d m sigla name n).countP isPlotEvent
      = if (get_property_from_api E.parses E.net E.quoteF province municipality
            n name sigla).isSome then 1 else 0 := by
  rcases hp : get_property_from_api E.parses E.net E.quoteF province municipality
      n name sigla with _ | p
  · simp [perNumberEvents, hp, isPlotEvent]
  · simp [perNumberEvents, hp, hflag, htd, htm, isPlotEvent]

/-- Counting events over the per-number groups of one street. -/
theorem countP_flatMap_eq (q : Nat → Bool) (ev : Nat → List Event)
    (p : Event → Bool) (hev : ∀ n, (ev n).countP p = if q n then 1 else 0) :
    ∀ l : List Nat, (l.flatMap ev).countP p = l.countP q := by
  intro l
  induction l with
  | nil => simp
  | cons n rest ih =>
    rw [List.flatMap_cons, List.countP_append, hev n, ih, List.countP_cons]
    cases hq : q n <;> simp [hq, Nat.add_comm]

/-- With plot surfaces enabled and truthy codes, one street scan emits exactly
one plot fetch per collected property. -/
theorem scanOneStreet_plot_count (E : Env) (A : Args)
    (province municipality : String) (d m : Option String) (sigla name : String)
    (hflag : A.no_plot_surface = false) (htd : truthy d = true)
    (htm : truthy m = true) :
    ((scanOneStreet E A province municipality d m sigla name).1).countP isPlotEvent
      = ((scanOneStreet E A province municipality d m sigla name).2).length := by
  simp only [scanOneStreet, List.length_map, scanStreet]
  rw [scanGo_fst_eq, List.length_filterMap_eq_countP]
  simp only [Option.isSome_map']
  exact countP_flatMap_eq
    (fun n => (get_property_from_api E.parses E.net E.quoteF province municipality
      n name sigla).isSome)
    (perNumberEvents E A province municipality d m sigla name) isPlotEvent
    (perNumberEvents_plot_count E A province municipality d m sigla name
      hflag htd htm) _

/-- Counting events against records, street by street. -/
theorem countP_flatten_map_eq {α β : Type} (p : Event → Bool)
    (F : α → List Event × List β)
    (h : ∀ a, (F a).1.countP p = (F a).2.length) :
    ∀ l : List α, (((l.map F).map Prod.fst).flatten).countP p
      = (((l.map F).map Prod.snd).flatten).length := by
  intro l
  induction l with
  | nil => simp
  | cons a rest ih =>
    simp only [List.map_cons, List.flatten_cons, List.countP_append,
      List.length_append, h a, ih]

/-- Claim C6: the program is a single linear procedure in a fixed order: the
trace is the code lookup, then street discovery, then only probe and
plot-fetch events (street by street, with the viewer page fetched once per
hit when the codes are truthy), and a single CSV write at the very end;
no step recurs. -/
theorem main_linear_order (E : Env) (A : Args) (h : A.no_plot_surface = false) :
    (mainRun E A).1
      = Event.lookupEv (consultaMunicipioUrl E.quoteF (mainProvince A)
            (mainMunicipality A))
        :: Event.discoverEv (consultaViaUrl E.quoteF (mainProvince A)
            (mainMunicipality A) (mainStreet A))
        :: ((mainScanned E A).map Prod.fst).flatten
        ++ [Event.writeEv (mainOutputFile A) (writeCsvRows (mainProperties E A))] ∧
    (∀ e ∈ ((mainScanned E A).map Prod.fst).flatten, isScanEvent e = true) ∧
    (mainRun E A).1.countP isWriteEvent = 1 ∧
    (mainRun E A).1.getLast?
      = some (Event.writeEv (mainOutputFile A) (writeCsvRows (mainProperties E A))) ∧
    (truthy (mainCodes E A).1 = true → truthy (mainCodes E A).2 = true →
      (((mainScanned E A).map Prod.fst).flatten).countP isPlotEvent
        = (mainProperties E A).length) := by
  have hscan : ∀ e ∈ ((mainScanned E A).map Prod.fst).flatten, isScanEvent e = true := by
    intro e he
    rw [List.mem_flatten] at he
    obtain ⟨l, hl, hel⟩ := he
    rw [List.mem_map] at hl
    obtain ⟨pair, hpair, rfl⟩ := hl
    rw [mainScanned, List.mem_map] at hpair
    obtain ⟨st, hst, rfl⟩ := hpair
    exact scanOneStreet_events_scan E A (mainProvince A) (mainMunicipality A)
      (mainCodes E A).1 (mainCodes E A).2 st.1 st.2 e hel
  have htr : (mainRun E A).1
      = Event.lookupEv (consultaMunicipioUrl E.quoteF (mainProvince A)
            (mainMunicipality A))
        :: Event.discoverEv (consultaViaUrl E.quoteF (mainProvince A)
            (mainMunicipality A) (mainStreet A))
        :: ((mainScanned E A).map Prod.fst).flatten
        ++ [Event.writeEv (mainOutputFile A) (writeCsvRows (mainProperties E A))] := by
    simp [mainRun, h]
  have hz : (((mainScanned E A).map Prod.fst).flatten).countP isWriteEvent = 0 :=
    List.countP_eq_zero.mpr (fun e he => by
      rw [isWriteEvent_eq_false_of_scan e (hscan e he)]
      simp)
  refine ⟨htr, hscan, ?_, ?_, ?_⟩
  · rw [htr]
    simp [List.countP_cons, List.countP_append, hz, isWriteEvent]
  · rw [htr]
    simp [List.getLast?_cons, List.getLast?_append]
  · intro htd htm
    rw [mainProperties, mainScanned]
    generalize mainStreets E A = l
    induction l with
    | nil => simp
    | cons st rest ih =>
      simp only [List.map_cons, List.flatten_cons, List.countP_append,
        List.length_append, ih]
      rw [scanOneStreet_plot_count E A (mainProvince A) (mainMunicipality A)
        (mainCodes E A).1 (mainCodes E A).2 st.1 st.2 h htd htm]

/-- Witness for C6 at the sample environment and arguments. -/
theorem main_linear_order_witness :
    (mainRun sampleEnv sampleArgs).1
      = Event.lookupEv (consultaMunicipioUrl sampleEnv.quoteF (mainProvince sampleArgs)
            (mainMunicipality sampleArgs))
        :: Event.discoverEv (consultaViaUrl sampleEnv.quoteF (mainProvince sampleArgs)
            (mainMunicipality sampleArgs) (mainStreet sampleArgs))
        :: ((mainScanned sampleEnv sampleArgs).map Prod.fst).flatten
        ++ [Event.writeEv (mainOutputFile sampleArgs)
              (writeCsvRows (mainProperties sampleEnv sampleArgs))] ∧
    (∀ e ∈ ((mainScanned sampleEnv sampleArgs).map Prod.fst).flatten,
      isScanEvent e = true) ∧
    (mainRun sampleEnv sampleArgs).1.countP isWriteEvent = 1 ∧
    (mainRun sampleEnv sampleArgs).1.getLast?
      = some (Event.writeEv (mainOutputFile sampleArgs)
          (writeCsvRows (mainProperties sampleEnv sampleArgs))) ∧
    (truthy (mainCodes sampleEnv sampleArgs).1 = true →
     truthy (mainCodes sampleEnv sampleArgs).2 = true →
      (((mainScanned sampleEnv sampleArgs).map Prod.fst).flatten).countP isPlotEvent
        = (mainProperties sampleEnv sampleArgs).length) :=
  main_linear_order sampleEnv sampleArgs (by rfl)

/-- The municipality-code query URL is built on `BASE_API`. -/
theorem consultaMunicipioUrl_base (q : String → String) (p m : String) :
    consultaMunicipioUrl q p m
      = BASE_API ++ ("/ConsultaMunicipio?Provincia=" ++ q p ++ "&Municipio=" ++ q m) := by
  simp [consultaMunicipioUrl, String.append_assoc]

/-- The street-discovery query URL is built on `BASE_API`. -/
theorem consultaViaUrl_base (q : String → String) (p m sq : String) :
    consultaViaUrl q p m sq
      = BASE_API ++ ("/ConsultaVia?Provincia=" ++ q p ++ "&Municipio=" ++ q m
          ++ "&TipoVia=&NombreVia=" ++ q sq) := by
  simp [consultaViaUrl, String.append_assoc]

/-- The house-number probe URL is built on `BASE_API`. -/
theorem dnplocUrl_base (q : String → String) (p m : String) (n : Nat)
    (nm tp : String) :
    dnplocUrl q p m n nm tp
      = BASE_API ++ ("/Consulta_DNPLOC?Provincia=" ++ q p ++ "&Municipio=" ++ q m
          ++ "&Sigla=" ++ q tp ++ "&Calle=" ++ q nm ++ "&Numero=" ++ toString n
          ++ "&Bloque=&Escalera=&Planta=&Puerta=") := by
  simp [dnplocUrl, String.append_assoc]

/-- The plot-surface viewer URL is built on `SEDE_URL`. -/
theorem plotUrl_base (q : String → String) (ref d m : String) :
    plotUrl q ref d m
      = SEDE_URL ++ ("?UrbRus=U&RefC=" ++ q ref
          ++ "&from=OVCBusqueda&pest=rc&RCCompleta=" ++ q ref
          ++ "&final=&del=" ++ d ++ "&mun=" ++ m) := by
  simp [plotUrl, String.append_assoc]

/-- Claim C7: every URL the program fetches is addressed to one of exactly two
remote endpoints: every fetched URL in the run's trace is built on `BASE_API`
(the `ConsultaMunicipio`, `ConsultaVia` and `Consulta_DNPLOC` queries) or on
`SEDE_URL` (the plot-surface query); no other host is ever contacted. -/
theorem all_urls_on_two_hosts (E : Env) (A : Args) (u : String)
    (h : ∃ e ∈ (mainRun E A).1, eventUrl e = some u) :
    (∃ rest, u = BASE_API ++ rest) ∨ (∃ rest, u = SEDE_URL ++ rest) := by
  obtain ⟨e, he, heu⟩ := h
  simp only [mainRun, List.mem_append, List.mem_cons, List.mem_singleton] at he
  rcases he with (hx | hd | hflat) | hw
  · by_cases hf : A.no_plot_surface = true
    · rw [if_pos hf] at hx
      exact absurd hx (by simp)
    · rw [if_neg hf] at hx
      rw [List.mem_singleton] at hx
      subst hx
      simp only [eventUrl, Option.some.injEq] at heu
      subst heu
      exact Or.inl ⟨_, consultaMunicipioUrl_base E.quoteF _ _⟩
  · subst hd
    simp only [eventUrl, Option.some.injEq] at heu
    subst heu
    exact Or.inl ⟨_, consultaViaUrl_base E.quoteF _ _ _⟩
  · rw [List.mem_flatten] at hflat
    obtain ⟨l, hl, hel⟩ := hflat
    rw [List.mem_map] at hl
    obtain ⟨pair, hpair, rfl⟩ := hl
    rw [mainScanned, List.mem_map] at hpair
    obtain ⟨st, hst, rfl⟩ := hpair
    simp only [scanOneStreet, List.mem_flatMap] at hel
    obtain ⟨n, hn, hev⟩ := hel
    rw [perNumberEvents, List.mem_cons] at hev
    rcases hev with rfl | hev
    · simp only [eventUrl, Option.some.injEq] at heu
      subst heu
      exact Or.inl ⟨_, dnplocUrl_base E.quoteF _ _ _ _ _⟩
    · rcases hp : get_property_from_api E.parses E.net E.quoteF (mainProvince A)
          (mainMunicipality A) n st.2 st.1 with _ | p
      · simp only [hp] at hev
        exact absurd hev (by simp)
      · simp only [hp] at hev
        by_cases hc : (!A.no_plot_surface && truthy (mainCodes E A).1
            && truthy (mainCodes E A).2) = true
        · rw [if_pos hc, List.mem_singleton] at hev
          subst hev
          simp only [eventUrl, Option.some.injEq] at heu
          subst heu
          exact Or.inr ⟨_, plotUrl_base E.quoteF _ _ _⟩
        · rw [if_neg hc] at hev
          exact absurd hev (by simp)
  · rcases hw with rfl | hw
    · simp [eventUrl] at heu
    · exact absurd hw (by simp)

/-- Witness for C7: the lookup URL of the sample run lives on `BASE_API`. -/
theorem all_urls_on_two_hosts_witness :
    (∃ rest, consultaMunicipioUrl sampleEnv.quoteF (mainProvince sampleArgs)
        (mainMunicipality sampleArgs) = BASE_API ++ rest) ∨
    (∃ rest, consultaMunicipioUrl sampleEnv.quoteF (mainProvince sampleArgs)
        (mainMunicipality sampleArgs) = SEDE_URL ++ rest) := by
  have hmem : Event.lookupEv (consultaMunicipioUrl sampleEnv.quoteF
      (mainProvince sampleArgs) (mainMunicipality sampleArgs))
      ∈ (mainRun sampleEnv sampleArgs).1 := by
    simp only [mainRun]
    apply List.mem_append_left
    apply List.mem_append_left
    rw [if_neg (by decide)]
    exact List.mem_singleton.mpr rfl
  exact all_urls_on_two_hosts sampleEnv sampleArgs _
    ⟨Event.lookupEv (consultaMunicipioUrl sampleEnv.quoteF (mainProvince sampleArgs)
      (mainMunicipality sampleArgs)), hmem, rfl⟩

end Catastro
